import Mathlib

/-!
# Verification of Eddie's Print Engine against its specification

Shallow embedding, in Lean 4, of the parts of the repository
`KeschFlow/eddies-print-engine` that the frozen claims C1..C10 speak about:

* `kern/kdp_preflight.py` — `ensure_min_pages` (page-count preflight);
* `app.py` — the `OrderedDict` LRU caches (`_lru_put`, hit path of
  `_get_sketch_cached` / `_wash_upload_to_bytes`), the quest bank and
  `build_book_schedule`, `_stable_seed`, `_new_build_nonce`, the interior
  build's schedule derivation, and `build_cover`'s geometry;
* `quest_data.py` — `Zone`/`Mission` data, hour ranges, `zone_for_hour`,
  the audience adapters and `pick_mission_for_time`;
* `cover_collage.py` — `build_cover_collage`'s spine / cover geometry and
  the spine-text threshold branch.

Python `float` arithmetic is modelled by exact rational arithmetic (`ℚ`);
machine integers are modelled by `Nat`/`Int` with explicit masking where
the underlying code wraps (SHA-256, PCG64).  External pseudo-random number
generators are embedded at two levels: abstractly (an arbitrary draw
function, for the universally-quantified scheduling theorems) and
concretely (NumPy's `default_rng`: `SeedSequence` entropy mixing, the
PCG64 bit generator with its 32-bit output buffering, and the buffered
32-bit Lemire bounded draw `Generator.integers` uses for ranges within
32 bits, transcribed from NumPy's published sources, for the concrete
reproducibility analysis).
-/

set_option maxRecDepth 4000

namespace EPE

/-! ## kern/kdp_preflight.py -/

/-- `ensure_min_pages(pages, *, min_pages=24, make_reflection_page)` from
`kern/kdp_preflight.py` lines 10–36.  `out = list(pages or [])`; if
`min_pages <= 0` or `len(out) >= min_pages` the list is returned as is;
otherwise `min_pages - n` filler pages `make_reflection_page(page_no)` are
appended, `page_no` running over `n+1, n+2, ...` (`start_idx = n + 1`). -/
def ensure_min_pages {α : Type} (pages : List α) (min_pages : Int)
    (make_reflection_page : Nat → α) : List α :=
  let out := pages
  if min_pages ≤ 0 then out
  else
    let n := out.length
    if (n : Int) ≥ min_pages then out
    else
      let needed := (min_pages - (n : Int)).toNat
      out ++ (List.range needed).map (fun k => make_reflection_page (n + 1 + k))

/-! ## app.py — OrderedDict LRU caches

An `OrderedDict` is modelled as a list of key-value pairs in recency
order: the head is the least recently used entry, the last element the
most recently used one, matching `popitem(last=False)` evicting from the
front and `move_to_end(key)` moving to the back. -/

/-- Keys of an ordered dict, in recency order (oldest first). -/
def odKeys {κ β : Type} (od : List (κ × β)) : List κ := od.map Prod.fst

/-- `od[key] = value`: update in place when the key is present (Python
dict assignment keeps the position), append otherwise. -/
def odSet {κ β : Type} [DecidableEq κ] (od : List (κ × β)) (k : κ) (v : β) :
    List (κ × β) :=
  if od.any (fun p => p.1 = k) then
    od.map (fun p => if p.1 = k then (k, v) else p)
  else od ++ [(k, v)]

/-- `od.move_to_end(key)` for a key that is present; identity otherwise
(in the source the key is always present when this is called). -/
def odMoveToEnd {κ β : Type} [DecidableEq κ] (od : List (κ × β)) (k : κ) :
    List (κ × β) :=
  match od.find? (fun p => p.1 = k) with
  | some p => od.filter (fun q => ¬ (q.1 = k)) ++ [p]
  | none => od

/-- The eviction loop of `_lru_put` (app.py lines 549–551):
`while len(od) > max_items: od.popitem(last=False)`. -/
def odEvict {κ β : Type} (maxItems : Nat) : List (κ × β) → List (κ × β)
  | [] => []
  | p :: t => if t.length + 1 > maxItems then odEvict maxItems t else p :: t

/-- `_lru_put(od, key, value, max_items)` from app.py lines 547–551:
`od[key] = value; od.move_to_end(key); while len(od) > max_items:
od.popitem(last=False)`. -/
def lru_put {κ β : Type} [DecidableEq κ] (od : List (κ × β)) (k : κ) (v : β)
    (maxItems : Nat) : List (κ × β) :=
  odEvict maxItems (odMoveToEnd (odSet od k v) k)

/-- The cache lookup performed by `_wash_upload_to_bytes` (app.py lines
578–580) and `_get_sketch_cached` (lines 613–615): on a hit the entry is
moved to the most-recently-used end and its value returned; on a miss the
dict is left unchanged. -/
def lru_get {κ β : Type} [DecidableEq κ] (od : List (κ × β)) (k : κ) :
    Option β × List (κ × β) :=
  match od.find? (fun p => p.1 = k) with
  | some p => (some p.2, odMoveToEnd od k)
  | none => (none, od)

theorem odEvict_eq_drop {κ β : Type} (m : Nat) (l : List (κ × β)) :
    odEvict m l = l.drop (l.length - m) := by
  induction l with
  | nil => simp [odEvict]
  | cons p t ih =>
      by_cases h : t.length + 1 > m
      · have hlen : t.length + 1 - m = (t.length - m) + 1 := by omega
        simp only [odEvict, if_pos h, List.length_cons, hlen, List.drop_succ_cons]
        exact ih
      · have hlen : t.length + 1 - m = 0 := by omega
        simp only [odEvict, if_neg h, List.length_cons, hlen, List.drop_zero]

theorem odEvict_length_le {κ β : Type} (m : Nat) (l : List (κ × β)) :
    (odEvict m l).length ≤ m := by
  induction l with
  | nil => simp [odEvict]
  | cons p t ih =>
      by_cases h : t.length + 1 > m
      · simpa [odEvict, if_pos h] using ih
      · simp only [odEvict, if_neg h, List.length_cons]
        omega

/-! ## quest_data.py — data model -/

/-- `Mission` dataclass from quest_data.py lines 27–35. -/
structure Mission where
  id : String
  title : String
  movement : String
  thinking : String
  proof : String
  xp : Int
  difficulty : Int
deriving DecidableEq

/-- `Zone` dataclass from quest_data.py lines 38–47.  `time_ranges` are
half-open hour ranges, end exclusive; `color` is an RGB triple in 0..1
(Python floats modelled as exact rationals). -/
structure Zone where
  id : String
  name : String
  icon : String
  atmosphere : String
  quest_type : String
  time_ranges : List (Int × Int)
  color : ℚ × ℚ × ℚ
  missions : List Mission
deriving DecidableEq

/-- `Audience = Literal["kid", "adult", "senior"]` (quest_data.py line 21). -/
inductive Audience
  | kid
  | adult
  | senior
deriving DecidableEq

/-! The `ZONES` database, quest_data.py lines 53–159, transcribed
verbatim. -/

def zone_wachturm : Zone :=
  { id := "wachturm", name := "Der Wachturm", icon := "🏰",
    atmosphere := "Aufwachen, Struktur", quest_type := "Skill Quest",
    time_ranges := [(6, 9)], color := (95/100, 95/100, 85/100),
    missions :=
      [ ⟨"wt_01", "Rüstung anlegen", "10 Kniebeugen.",
          "ZIEL: Plane 2 Wege, dich morgens fertig zu machen.", "✅ Haken", 15, 1⟩,
        ⟨"wt_02", "Fokus-Reset", "30s auf einem Bein stehen.",
          "ZIEL: Finde 2 Strategien für einen guten Start.", "✅ Notiz", 20, 2⟩,
        ⟨"wt_03", "Zahn-Monster", "2 Min Zähne putzen + 10 Hampelmänner.",
          "ZIEL: Besiege die Bakterien.", "✅ Sauberes Lächeln", 20, 1⟩ ] }

def zone_wilder_pfad : Zone :=
  { id := "wilder_pfad", name := "Wilder Pfad", icon := "🌲",
    atmosphere := "Weg, Draußen, Erkunden", quest_type := "Exploration",
    time_ranges := [(9, 12)], color := (85/100, 95/100, 85/100),
    missions :=
      [ ⟨"wp_01", "Musterjäger", "Finde 3 rote Dinge und berühre sie.",
          "ZIEL: Zeichne ein Muster, das du siehst.", "✅ Skizze", 25, 2⟩,
        ⟨"wp_02", "Spurenleser", "Gehe 20 Schritte rückwärts.",
          "ZIEL: Finde einen Weg von A nach B.", "✅ Karte zeichnen", 30, 3⟩ ] }

def zone_taverne : Zone :=
  { id := "taverne", name := "Die Taverne", icon := "🍲",
    atmosphere := "Essen, Energie tanken", quest_type := "Energy Quest",
    time_ranges := [(12, 13)], color := (1, 9/10, 8/10),
    missions :=
      [ ⟨"tv_01", "Energie-Scan", "10x Kauen pro Bissen.",
          "ZIEL: Errate 3 Zutaten im Essen.", "✅ Liste", 20, 1⟩,
        ⟨"tv_02", "Wasser-Kraft", "Trinke ein Glas Wasser.",
          "ZIEL: Fühle, wie die Energie zurückkommt.", "✅ Check", 15, 1⟩ ] }

def zone_werkstatt : Zone :=
  { id := "werkstatt", name := "Die Werkstatt", icon := "🔨",
    atmosphere := "Bauen, Kreativität", quest_type := "Build Quest",
    time_ranges := [(13, 15)], color := (9/10, 9/10, 1),
    missions :=
      [ ⟨"ws_01", "Brückenbauer", "20 Armkreise.",
          "ZIEL: Baue eine Brücke aus Dingen im Raum.", "✅ Foto/Skizze", 30, 3⟩,
        ⟨"ws_02", "Turm-Ingenieur", "10 Liegestütze an der Wand.",
          "ZIEL: Baue den höchsten Turm.", "✅ Höhe messen", 35, 4⟩ ] }

def zone_arena : Zone :=
  { id := "arena", name := "Die Arena", icon := "⚔️",
    atmosphere := "Sport, Action", quest_type := "Action Quest",
    time_ranges := [(15, 17)], color := (1, 85/100, 85/100),
    missions :=
      [ ⟨"ar_01", "Schatten-Boxen", "30s Boxen in die Luft.",
          "ZIEL: Sei schneller als dein Schatten.", "✅ Puls fühlen", 35, 3⟩,
        ⟨"ar_02", "Lava-Boden", "Berühre 1 Min nicht den Boden.",
          "ZIEL: Finde einen sicheren Weg.", "✅ Geschafft", 40, 4⟩ ] }

def zone_ratssaal : Zone :=
  { id := "ratssaal", name := "Der Ratssaal", icon := "🤝",
    atmosphere := "Sozial, Familie, Helfen", quest_type := "Social Quest",
    time_ranges := [(17, 19)], color := (95/100, 85/100, 95/100),
    missions :=
      [ ⟨"rs_01", "Der Bote", "Überbringe eine Nachricht flüsternd.",
          "ZIEL: Mache jemanden glücklich.", "✅ Lächeln erhalten", 45, 4⟩,
        ⟨"rs_02", "Tisch-Ritter", "Decke den Tisch in unter 2 Min.",
          "ZIEL: Helfen ist Ehrensache.", "✅ Alles am Platz", 40, 3⟩ ] }

def zone_quellen : Zone :=
  { id := "quellen", name := "Die Quellen", icon := "🛁",
    atmosphere := "Bad, Hygiene", quest_type := "Water Quest",
    time_ranges := [(19, 21)], color := (8/10, 95/100, 1),
    missions :=
      [ ⟨"qq_01", "Schaum-Krone", "Wasche dein Gesicht.",
          "ZIEL: Werde sauber für die Nacht.", "✅ Spiegel-Check", 25, 2⟩,
        ⟨"qq_02", "Zahn-Schutz", "3 Min Putzen.",
          "ZIEL: Keine Chance für Karius.", "✅ Sauber", 25, 2⟩ ] }

def zone_trauminsel : Zone :=
  { id := "trauminsel", name := "Traum-Insel", icon := "🌙",
    atmosphere := "Schlaf, Ruhe", quest_type := "Silent Quest",
    time_ranges := [(21, 24), (0, 6)], color := (15/100, 15/100, 35/100),
    missions :=
      [ ⟨"ti_01", "Traum-Fänger", "Augen zu, tief atmen.",
          "ZIEL: Erinnere dich an das Beste heute.", "✅ Gedanke", 20, 1⟩,
        ⟨"ti_02", "Stille Wacht", "Liege 1 Min ganz still.",
          "ZIEL: Lausche in die Nacht.", "✅ Ruhe", 20, 1⟩ ] }

def ZONES : List Zone :=
  [ zone_wachturm, zone_wilder_pfad, zone_taverne, zone_werkstatt,
    zone_arena, zone_ratssaal, zone_quellen, zone_trauminsel ]

/-! ## quest_data.py — internal utilities -/

/-- Python whitespace characters matched by the regex class `\s` (the
quest strings contain no non-ASCII whitespace). -/
def isPySpace (c : Char) : Bool :=
  c = ' ' || c = '\t' || c = '\n' || c = '\r' || c = '\x0b' || c = '\x0c'

/-- One pass of `_WS.sub(" ", s)` (quest_data.py line 168): every maximal
run of whitespace becomes a single space.  The flag records whether the
previous character was part of a whitespace run. -/
def collapseWS : Bool → List Char → List Char
  | _, [] => []
  | prevSpace, c :: rest =>
    if isPySpace c then
      if prevSpace then collapseWS true rest
      else ' ' :: collapseWS true rest
    else c :: collapseWS false rest

/-- Python `str.strip()`: drop whitespace from both ends. -/
def stripWS (cs : List Char) : List Char :=
  ((cs.dropWhile isPySpace).reverse.dropWhile isPySpace).reverse

/-- `_clean(s) = _WS.sub(" ", s or "").strip()` (quest_data.py lines
167–168). -/
def clean (s : String) : String := ⟨stripWS (collapseWS false s.data)⟩

/-- `_h(hour) = int(hour) % 24` (quest_data.py lines 170–171); Python `%`
on a positive modulus is `Int.emod`'s nonnegative remainder. -/
def hourMod (hour : Int) : Int := hour.emod 24

/-- `_in_range(h, start, end)` from quest_data.py lines 173–188: supports
normal ranges (`start < end`) and wrap ranges (`start > end`); end is
exclusive; `start == end` after `% 24` counts as full-day. -/
def in_range (h a b : Int) : Bool :=
  let start := a.emod 24
  let «end» := b.emod 24
  if start = «end» then true
  else if start < «end» then decide (start ≤ h ∧ h < «end»)
  else decide (h ≥ start ∨ h < «end»)

/-- A zone matches an hour when any of its ranges contains it (the inner
loop of the `_HOUR_TO_ZONE` construction, quest_data.py lines 195–201). -/
def zoneCovers (z : Zone) (h : Int) : Bool :=
  z.time_ranges.any (fun r => in_range h r.1 r.2)

/-- The `_HOUR_TO_ZONE` entry for one hour (quest_data.py lines 192–202):
the first zone in `ZONES` order covering the hour, with `ZONES[0]` as the
deterministic fallback. -/
def hourToZone (hr : Int) : Zone :=
  (ZONES.find? (fun z => zoneCovers z hr)).getD zone_wachturm

/-- `get_zone_for_hour(hour)` (quest_data.py lines 272–274; alias
`zone_for_hour`, line 372): precomputed-map lookup at `_h(hour)`. -/
def get_zone_for_hour (hour : Int) : Zone := hourToZone (hourMod hour)

/-! ## quest_data.py — audience adapters -/

/-- `_adultize` (quest_data.py lines 208–225). -/
def adultize (m : Mission) : Mission :=
  let movement := clean
    ((((m.movement.replace "Hampelmänner" "lockere Sprünge (oder zügig gehen)").replace
        "Kniebeugen" "Kniebeugen (oder 1 Minute zügig gehen)").replace
        "Liegestütze an der Wand" "Wandstütz-Übung (sanft)").replace
        "flüsternd" "leise und freundlich")
  let thinking := clean
    ((((m.thinking.replace "ZIEL:" "REFLEXION:").replace
        "Besiege" "Reduziere").replace
        "Finde" "Notiere").replace
        "Errate" "Identifiziere")
  let proof := clean (m.proof.replace "✅" "☑️")
  let title := clean m.title
  { id := m.id, title := title, movement := movement, thinking := thinking,
    proof := proof, xp := m.xp, difficulty := m.difficulty }

/-- `_seniorize` (quest_data.py lines 228–258). -/
def seniorize (m : Mission) : Mission :=
  let movement := clean
    (((((((m.movement.replace "10 Kniebeugen." "5 langsame Kniebeugen ODER 1 Minute im Raum gehen.").replace
        "20 Armkreise." "10 sanfte Armkreise (oder Schultern locker kreisen).").replace
        "30s auf einem Bein stehen." "10 Sekunden stabil stehen (am Tisch festhalten erlaubt).").replace
        "30s Boxen in die Luft." "30 Sekunden Arme sanft vor/zurück bewegen.").replace
        "Berühre 1 Min nicht den Boden." "1 Minute Sitz- oder Steh-Parcours (sicher!).").replace
        "10x Kauen pro Bissen." "Langsam kauen und bewusst schmecken.").replace
        "Gehe 20 Schritte rückwärts." "5 Schritte rückwärts (nur wenn sicher) ODER seitwärts gehen.")
  let thinking := clean
    (((((m.thinking.replace "ZIEL:" "ERINNERUNG:").replace
        "Plane" "Erinnere dich an").replace
        "Finde" "Denke an").replace
        "Zeichne" "Beschreibe").replace
        "Errate" "Nenne")
  let thinking :=
    if thinking.startsWith "ERINNERUNG:" then thinking
    else clean ("ERINNERUNG: " ++ thinking)
  let proof := clean
    (((m.proof.replace "✅" "☑️").replace
        "Foto/Skizze" "Notiz").replace
        "Skizze" "Notiz")
  let title := clean m.title
  { id := m.id, title := title, movement := movement, thinking := thinking,
    proof := proof, xp := m.xp, difficulty := m.difficulty }

/-- `adapt_mission(m, audience)` (quest_data.py lines 261–266). -/
def adapt_mission (m : Mission) : Audience → Mission
  | .kid => m
  | .adult => adultize m
  | .senior => seniorize m

/-! ## quest_data.py — mission picking

`pick_mission_for_time` draws via `random.Random(int(seed)).choice(pool)`,
which is `pool[rng._randbelow(len(pool))]` with `_randbelow(n) < n`.  The
Mersenne-Twister draw is embedded abstractly as a function `randbelow` of
the pool size (any function; `% len` enforces the `< len` contract the
real generator satisfies), so theorems quantify over every possible
draw. -/

/-- Unreachable fallback for indexing (the pools indexed in this
development are provably nonempty; Python would raise on an empty one). -/
def dummyMission : Mission := ⟨"", "", "", "", "", 0, 0⟩

/-- `random.Random(seed).choice(pool)` with the draw abstracted. -/
def rand_choice (randbelow : Nat → Nat) (pool : List Mission) : Mission :=
  pool.getD (randbelow pool.length % pool.length) dummyMission

/-- `pick_mission_for_time(hour, difficulty, seed, audience)` from
quest_data.py lines 300–319 (alias `pick_mission`, line 373): clamp the
difficulty into 1..5, filter the zone pool (`or` falls back to the full
pool when the filter empties it), draw, then adapt for the audience. -/
def pick_mission_for_time (randbelow : Nat → Nat) (hour difficulty : Int)
    (audience : Audience) : Mission :=
  let z := get_zone_for_hour hour
  let d := max 1 (min 5 difficulty)
  let filtered := z.missions.filter (fun m => m.difficulty ≤ d)
  let pool := if filtered = [] then z.missions else filtered
  adapt_mission (rand_choice randbelow pool) audience

/-! ## Print geometry — app.py CONFIG and cover_collage.py

Lengths are in PostScript points (`inch = 72`); Python floats are
modelled as exact rationals. -/

def inch : ℚ := 72

/-- `TRIM_IN = 8.5` (app.py line 329). -/
def TRIM_IN : ℚ := 85/10

/-- `TRIM = TRIM_IN * inch` (app.py line 330). -/
def TRIM : ℚ := TRIM_IN * inch

/-- `BLEED = 0.125 * inch` (app.py line 331). -/
def BLEED : ℚ := 125/1000 * inch

/-- `KDP_PAGES_FIXED = 26` (app.py line 342). -/
def KDP_PAGES_FIXED : ℕ := 26

/-- `SPINE_TEXT_MIN_PAGES = 79` (app.py line 343). -/
def SPINE_TEXT_MIN_PAGES : ℤ := 79

/-- Python's built-in `round()` on a rational: round half to even. -/
def pyRound (x : ℚ) : ℤ :=
  if x - (⌊x⌋ : ℚ) < 1/2 then ⌊x⌋
  else if 1/2 < x - (⌊x⌋ : ℚ) then ⌊x⌋ + 1
  else if ⌊x⌋ % 2 = 0 then ⌊x⌋ else ⌊x⌋ + 1

/-- Spine width computed by `build_cover_collage` (cover_collage.py lines
159–162), in points: `sw = pages * factor * inch`, clamped below by
`0.001 * inch`, then rounded to the nearest multiple of `0.001 * inch`
(`sw = round(sw / (0.001*inch)) * (0.001*inch)`). -/
def spine_width_pts (pages : ℕ) (factor : ℚ) : ℚ :=
  (pyRound (max ((pages : ℚ) * factor * inch) (1/1000 * inch) / (1/1000 * inch)) : ℚ)
    * (1/1000 * inch)

/-- The collage spine width in inches. -/
def spine_width_in (pages : ℕ) (factor : ℚ) : ℚ :=
  spine_width_pts pages factor / inch

/-- Modelled from the spec: `spine_width(page_count, paper_factor)` is
`page_count * paper_factor`, clamped to a minimum manufacturable width
(0.001 inch in the source's units) — the claim's formula, with no further
adjustment.  In inches. -/
def spec_spine_width_in (pages : ℕ) (factor : ℚ) : ℚ :=
  max ((pages : ℚ) * factor) (1/1000)

/-- The derived cover measurements: spine width, x-offsets of the
back/spine/front regions, and overall width/height (points). -/
structure CoverGeometry where
  spine : ℚ
  backX : ℚ
  spineX : ℚ
  frontX : ℚ
  width : ℚ
  height : ℚ
deriving DecidableEq

/-- Cover geometry of `build_cover_collage` (cover_collage.py lines
156–230): `cw, ch = (2*TRIM) + sw + (2*BLEED), TRIM + (2*BLEED)`; the
back block is drawn at `x = BLEED` with width `TRIM` (line 230), the
spine rectangle at `x = BLEED + TRIM` with width `sw` (line 175), and the
front area starts at `fx = BLEED + TRIM + sw` (line 187) with width
`TRIM`. -/
def build_cover_collage_geometry (pages : ℕ) (factor trim_in bleed_in : ℚ) :
    CoverGeometry :=
  { spine := spine_width_pts pages factor,
    backX := bleed_in * inch,
    spineX := bleed_in * inch + trim_in * inch,
    frontX := bleed_in * inch + trim_in * inch + spine_width_pts pages factor,
    width := 2 * (trim_in * inch) + spine_width_pts pages factor + 2 * (bleed_in * inch),
    height := trim_in * inch + 2 * (bleed_in * inch) }

/-- Spine width of `build_cover` (app.py line 834), in points:
`max(float(KDP_PAGES_FIXED) * factor * inch, 0.001 * inch)` — clamped but
not rounded, at the fixed page count 26. -/
def build_cover_sw (factor : ℚ) : ℚ :=
  max ((KDP_PAGES_FIXED : ℚ) * factor * inch) (1/1000 * inch)

/-- Cover geometry of `build_cover` (app.py lines 832–853): same layout
with the global `TRIM`/`BLEED` (the back region is the left trim-sized
block implicitly starting at `x = BLEED`; the spine rectangle at
`BLEED + TRIM`, line 848; the front at `fx = BLEED + TRIM + sw`,
line 851). -/
def build_cover_geometry (factor : ℚ) : CoverGeometry :=
  { spine := build_cover_sw factor,
    backX := BLEED,
    spineX := BLEED + TRIM,
    frontX := BLEED + TRIM + build_cover_sw factor,
    width := 2 * TRIM + build_cover_sw factor + 2 * BLEED,
    height := TRIM + 2 * BLEED }

/-- What gets drawn on the spine band of the cover. -/
inductive SpineArt
  | rotatedText
  | plainBand
  | compactMark
deriving DecidableEq

/-- The spine decoration branch of `build_cover_collage` (cover_collage.py
lines 174–184): the solid spine rectangle is always drawn; rotated spine
text (`"EDDIES & <name>"`) is added if and only if
`pages >= spine_text_min_pages`.  There is no other branch: below the
threshold the spine stays a plain solid band. -/
def cover_spine_art (pages threshold : ℤ) : SpineArt :=
  if pages ≥ threshold then .rotatedText else .plainBand

/-- Modelled from the spec: below the minimum-for-legible-spine-text
threshold a compact mark is rendered instead of the rotated text
(claim C8's description of the branch). -/
def claimed_spine_art (pages threshold : ℤ) : SpineArt :=
  if pages ≥ threshold then .rotatedText else .compactMark

theorem pyRound_lb (x : ℚ) : ⌊x⌋ ≤ pyRound x := by
  unfold pyRound
  split_ifs <;> omega

theorem pyRound_ub (x : ℚ) : pyRound x ≤ ⌊x⌋ + 1 := by
  unfold pyRound
  split_ifs <;> omega

theorem pyRound_mono {x y : ℚ} (h : x ≤ y) : pyRound x ≤ pyRound y := by
  rcases lt_or_le ⌊x⌋ ⌊y⌋ with hf | hf
  · calc pyRound x ≤ ⌊x⌋ + 1 := pyRound_ub x
      _ ≤ ⌊y⌋ := by omega
      _ ≤ pyRound y := pyRound_lb y
  · have hfe : ⌊x⌋ = ⌊y⌋ := le_antisymm (Int.floor_le_floor h) hf
    have hr : x - (⌊x⌋ : ℚ) ≤ y - (⌊y⌋ : ℚ) := by
      rw [hfe]; linarith
    unfold pyRound
    rw [hfe] at hr ⊢
    split_ifs <;> first | omega | (exfalso; linarith)

theorem pyRound_one_le {x : ℚ} (h : (1 : ℚ) ≤ x) : 1 ≤ pyRound x := by
  have : (1 : ℤ) ≤ ⌊x⌋ := by
    exact_mod_cast Int.le_floor.mpr (by exact_mod_cast h)
  exact le_trans this (pyRound_lb x)

theorem spine_width_pts_pos (pages : ℕ) (factor : ℚ) :
    0 < spine_width_pts pages factor := by
  unfold spine_width_pts
  have hc : (0 : ℚ) < 1/1000 * inch := by norm_num [inch]
  have h1 : (1 : ℚ) ≤ max ((pages : ℚ) * factor * inch) (1/1000 * inch) / (1/1000 * inch) := by
    rw [le_div_iff₀ hc]
    simp
  have h2 : (1 : ℤ) ≤ pyRound (max ((pages : ℚ) * factor * inch) (1/1000 * inch) / (1/1000 * inch)) :=
    pyRound_one_le h1
  have h3 : (1 : ℚ) ≤ (pyRound (max ((pages : ℚ) * factor * inch) (1/1000 * inch) / (1/1000 * inch)) : ℚ) := by
    exact_mod_cast h2
  nlinarith

theorem spine_width_pts_mono {factor : ℚ} (hf : 0 ≤ factor) {n m : ℕ}
    (h : n ≤ m) : spine_width_pts n factor ≤ spine_width_pts m factor := by
  unfold spine_width_pts
  have hc : (0 : ℚ) < 1/1000 * inch := by norm_num [inch]
  have harg : (n : ℚ) * factor * inch ≤ (m : ℚ) * factor * inch := by
    have hnm : (n : ℚ) ≤ (m : ℚ) := by exact_mod_cast h
    have hi : (0 : ℚ) ≤ inch := by norm_num [inch]
    exact mul_le_mul_of_nonneg_right (mul_le_mul_of_nonneg_right hnm hf) hi
  have hmax : max ((n : ℚ) * factor * inch) (1/1000 * inch)
      ≤ max ((m : ℚ) * factor * inch) (1/1000 * inch) :=
    max_le_max harg le_rfl
  have hdiv : max ((n : ℚ) * factor * inch) (1/1000 * inch) / (1/1000 * inch)
      ≤ max ((m : ℚ) * factor * inch) (1/1000 * inch) / (1/1000 * inch) :=
    (div_le_div_iff_of_pos_right hc).mpr hmax
  have hround := pyRound_mono hdiv
  have hcast : ((pyRound (max ((n : ℚ) * factor * inch) (1/1000 * inch) / (1/1000 * inch))) : ℚ)
      ≤ ((pyRound (max ((m : ℚ) * factor * inch) (1/1000 * inch) / (1/1000 * inch))) : ℚ) := by
    exact_mod_cast hround
  nlinarith

/-! ## app.py — dynamic quest bank (`_build_full_quest_bank`, lines
227–288) -/

/-- One entry of the quest bank (the dicts built in
`_build_full_quest_bank`). -/
structure Quest where
  id : String
  title : String
  xp : Int
  movement : String
  thinking : String
  proof : String
deriving DecidableEq

/-- `f"{n:02d}"` for the values used (0–23). -/
def two_digits (n : Nat) : String :=
  (if n < 10 then "0" else "") ++ toString n

def m_titles : List String :=
  ["Start-Kraft", "Rüstung anlegen", "Morgen-Fokus", "Wachmacher",
   "Sonnen-Sucher", "Frühsport", "Augen auf", "Energie-Tank", "Tag-Blick",
   "Morgen-Scan"]

def m_moves : List String :=
  ["Mache 10 Kniebeugen.", "20 Sekunden Hampelmann.",
   "Streck dich so groß du kannst.", "Laufe 10 Sekunden auf der Stelle.",
   "Hüpfe 5x hoch in die Luft.", "Berühre 10x deine Zehenspitzen.",
   "Kreise deine Arme wie Windmühlen.", "Mache 5 Froschsprünge.",
   "Balanciere 10 Sekunden auf einem Bein.",
   "Mache 3 große Ausfallschritte."]

def d_titles : List String :=
  ["Musterjäger", "Adlerauge", "Action-Check", "Spürhund", "Fokus-Meister",
   "Abenteuer-Blick", "Such-Ninja", "Formen-Ritter", "Tempo-Scan",
   "Durchblick"]

def d_moves : List String :=
  ["Mache 10 Hampelmänner.", "Hüpfe 10x auf dem rechten Bein.",
   "Mache 5 Kniebeugen.", "Laufe im Zickzack.", "Dreh dich 5x im Kreis.",
   "Mache 5 Känguru-Sprünge.", "Balanciere wie ein Flamingo.",
   "Mache 10 schnelle Schritte auf der Stelle.",
   "Streck dich und berühre den Boden.", "Mache 3 Sternensprünge."]

def e_titles : List String :=
  ["Nacht-Wache", "Ruhe-Check", "Schatten-Jäger", "Leise Pfoten",
   "Dämmerungs-Blick", "Abend-Fokus", "Sternen-Scanner", "Fokus-Ninja",
   "Traum-Pfad", "Nacht-Auge"]

def e_moves : List String :=
  ["Stell dich auf die Zehenspitzen und zähle bis 10.",
   "Bewege dich 10 Sekunden in Zeitlupe.", "Atme 3x tief ein und aus.",
   "Setz dich in den Schneidersitz.", "Massiere sanft deine Ohren.",
   "Mache dich ganz klein wie ein Igel.", "Streck dich langsam nach oben.",
   "Kreise sanft deine Schultern.",
   "Schließe die Augen und zähle bis 5.",
   "Stell dich aufrecht hin wie ein Baum."]

def n_titles : List String :=
  ["Traum-Fänger", "Stille Wacht", "Nacht-Flug", "Schlaf-Ninja",
   "Mondlicht-Blick", "Traum-Scan", "Sternen-Staub", "Leise Suche",
   "Ruhe-Mission", "Nacht-Fokus"]

def n_moves : List String :=
  ["Atme tief in den Bauch.", "Lege dich 10 Sekunden ganz still hin.",
   "Bewege deine Finger wie Sterne.", "Schließe die Augen und atme.",
   "Sei so leise wie eine Maus.", "Strecke deine Arme sanft aus.",
   "Mache ein leises \x27Schh\x27-Geräusch.", "Gähne einmal herzhaft.",
   "Lächle mit geschlossenen Augen.", "Entspanne deine Schultern."]

def bankProofs : List String :=
  ["Kreise alle Formen ein.", "Male die Sterne gelb aus.",
   "Setze einen Punkt in jede Form.",
   "Verbinde die Formen mit einer Linie.",
   "Zähle laut mit und hake ab.", "Male die Quadrate bunt an.",
   "Setze einen Haken neben die Dreiecke.",
   "Male kleine Gesichter in die Formen."]

/-- The title/movement lists chosen for an hour (app.py lines 248–255). -/
def bankLists (h : Nat) : List String × List String :=
  if 6 ≤ h ∧ h ≤ 11 then (m_titles, m_moves)
  else if 12 ≤ h ∧ h ≤ 17 then (d_titles, d_moves)
  else if 18 ≤ h ∧ h ≤ 21 then (e_titles, e_moves)
  else (n_titles, n_moves)

/-- Entry `i` of hour `h`'s bank pool (app.py lines 257–273). -/
def bankQuest (h i : Nat) : Quest :=
  let lists := bankLists h
  { id := two_digits h ++ "_" ++ two_digits i,
    title := lists.1.getD (i % lists.1.length) "",
    xp := (10 + i + (h % 5) : Nat),
    movement := lists.2.getD (i % lists.2.length) "",
    thinking :=
      if i % 3 = 0 then "Finde {tri} Dreiecke, {sq} Quadrate und {st_} Sterne."
      else if i % 3 = 1 then "Spüre insgesamt {total} versteckte Formen auf (△, □, ★)."
      else "Suche: {tri}x Dreieck, {sq}x Quadrat, {st_}x Stern.",
    proof := bankProofs.getD ((h + i) % bankProofs.length) "" }

/-- `QUEST_BANK` (app.py line 288) as the lookup
`QUEST_BANK.get(f"{hour:02d}", [])` used by `build_book_schedule`: ten
quests per hour 0–23, empty for any other key. -/
def QUEST_BANK (hour : Nat) : List Quest :=
  if hour < 24 then (List.range 10).map (bankQuest hour) else []

/-- `QUEST_RESERVE` (app.py lines 275–284): 24 reserve quests
`res_00`..`res_23`. -/
def QUEST_RESERVE : List Quest :=
  (List.range 24).map (fun i =>
    { id := "res_" ++ two_digits i, title := "Sonder-Mission", xp := 20,
      movement := "Mache 3x tief Ooommm.",
      thinking := "Finde {total} versteckte Symbole.",
      proof := "Setze einen dicken Haken!" })

/-! ## app.py — `build_book_schedule` (lines 290–311)

The NumPy draw `rng.integers(0, len(candidates))` is abstracted as a
stateful function `draw : σ → Nat → Nat × σ` from (generator state,
number of candidates) to (index, new state); `% n` enforces the `< n`
range contract the real generator satisfies.  A step yields `none`
exactly when the candidate list is empty — the case where
`integers(0, 0)` would raise — so `none` models "raises". -/

/-- The candidate chain of one `build_book_schedule` iteration (app.py
lines 298–304): the hour pool filtered by unused ids, falling back to the
filtered reserve, then to the whole reserve. -/
def scheduleCandidates (used : List String) (hour : Nat) : List Quest :=
  let c1 := (QUEST_BANK hour).filter (fun q => !(used.contains q.id))
  let c2 := if c1 = [] then QUEST_RESERVE.filter (fun q => !(used.contains q.id)) else c1
  if c2 = [] then QUEST_RESERVE else c2

/-- One loop iteration of `build_book_schedule` (app.py lines 296–309):
build the candidate chain, draw an index, record the picked id as
used. -/
def scheduleStep {σ : Type} (draw : σ → Nat → Nat × σ) (used : List String)
    (rng : σ) (hour : Nat) : Option (Quest × List String × σ) :=
  if hlen : (scheduleCandidates used hour).length = 0 then none
  else
    let d := draw rng (scheduleCandidates used hour).length
    let picked := (scheduleCandidates used hour).get
      ⟨d.1 % (scheduleCandidates used hour).length,
       Nat.mod_lt _ (Nat.pos_of_ne_zero hlen)⟩
    some (picked, used ++ [picked.id], d.2)

/-- The loop of `build_book_schedule`: `k` iterations remain, `i` is the
current loop index; `sched` models the `schedule` dict as an ordered
association list (`odSet` is Python dict assignment). -/
def scheduleAux {σ : Type} (draw : σ → Nat → Nat × σ) (start : Nat) :
    Nat → Nat → List String → σ → List (Nat × Quest) →
    Option (List (Nat × Quest))
  | 0, _, _, _, sched => some sched
  | Nat.succ k, i, used, rng, sched =>
    let hour := (start + i) % 24
    match scheduleStep draw used rng hour with
    | none => none
    | some (q, used2, rng2) =>
        scheduleAux draw start k (i + 1) used2 rng2 (odSet sched hour q)

/-- `build_book_schedule(seed, start_hour, count)` with the generator
state `rng0` standing for `np.random.default_rng(seed)`. -/
def build_book_schedule {σ : Type} (draw : σ → Nat → Nat × σ) (rng0 : σ)
    (start_hour count : Nat) : Option (List (Nat × Quest)) :=
  scheduleAux draw start_hour count 0 [] rng0 []

/-! ## SHA-256 (hashlib.sha256, used by `_stable_seed` and the cache
keys)

Bytes are `Nat`s below 256; 32-bit words are `Nat`s reduced mod `2^32`
explicitly. -/

def toU32 (n : Nat) : Nat := n % 4294967296

def rotr32 (v r : Nat) : Nat := toU32 ((v >>> r) ||| (v <<< (32 - r)))

def shaCh (x y z : Nat) : Nat := (x &&& y) ^^^ ((x ^^^ 4294967295) &&& z)

def shaMaj (x y z : Nat) : Nat := (x &&& y) ^^^ (x &&& z) ^^^ (y &&& z)

def bigS0 (x : Nat) : Nat := rotr32 x 2 ^^^ rotr32 x 13 ^^^ rotr32 x 22

def bigS1 (x : Nat) : Nat := rotr32 x 6 ^^^ rotr32 x 11 ^^^ rotr32 x 25

def smallS0 (x : Nat) : Nat := rotr32 x 7 ^^^ rotr32 x 18 ^^^ (x >>> 3)

def smallS1 (x : Nat) : Nat := rotr32 x 17 ^^^ rotr32 x 19 ^^^ (x >>> 10)

def SHA_K : List Nat :=
  [1116352408, 1899447441, 3049323471, 3921009573, 961987163,
   1508970993, 2453635748, 2870763221, 3624381080, 310598401,
   607225278, 1426881987, 1925078388, 2162078206, 2614888103,
   3248222580, 3835390401, 4022224774, 264347078, 604807628,
   770255983, 1249150122, 1555081692, 1996064986, 2554220882,
   2821834349, 2952996808, 3210313671, 3336571891, 3584528711,
   113926993, 338241895, 666307205, 773529912, 1294757372,
   1396182291, 1695183700, 1986661051, 2177026350, 2456956037,
   2730485921, 2820302411, 3259730800, 3345764771, 3516065817,
   3600352804, 4094571909, 275423344, 430227734, 506948616,
   659060556, 883997877, 958139571, 1322822218, 1537002063,
   1747873779, 1955562222, 2024104815, 2227730452, 2361852424,
   2428436474, 2756734187, 3204031479, 3329325298]

def SHA_H0 : List Nat :=
  [1779033703, 3144134277, 1013904242, 2773480762, 1359893119,
   2600822924, 528734635, 1541459225]

/-- Standard SHA-256 padding: `0x80`, zeros to 56 mod 64, 8-byte
big-endian bit length. -/
def sha256pad (msg : List Nat) : List Nat :=
  let L := msg.length
  let zeros := (119 - L % 64) % 64
  let bitlen := 8 * L
  msg ++ [128] ++ List.replicate zeros 0
      ++ (List.range 8).map (fun i => (bitlen >>> (8 * (7 - i))) % 256)

/-- Split into 64-byte blocks (fuel-bounded structural recursion; the
fuel `l.length` always suffices since every step consumes at least one
byte). -/
def chunk64Aux : Nat → List Nat → List (List Nat)
  | 0, _ => []
  | _, [] => []
  | fuel + 1, a :: rest =>
    ((a :: rest).take 64) :: chunk64Aux fuel ((a :: rest).drop 64)

def chunk64 (l : List Nat) : List (List Nat) := chunk64Aux l.length l

/-- The 64-word message schedule of one block. -/
def shaW (block : List Nat) : List Nat :=
  let w16 := (List.range 16).map (fun i =>
    ((block.getD (4 * i) 0) <<< 24) + ((block.getD (4 * i + 1) 0) <<< 16)
      + ((block.getD (4 * i + 2) 0) <<< 8) + block.getD (4 * i + 3) 0)
  (List.range 48).foldl (fun w _ =>
      let t := w.length
      w ++ [toU32 (smallS1 (w.getD (t - 2) 0) + w.getD (t - 7) 0
        + smallS0 (w.getD (t - 15) 0) + w.getD (t - 16) 0)]) w16

/-- The eight working registers of the compression loop. -/
structure ShaRegs where
  a : Nat
  b : Nat
  c : Nat
  d : Nat
  e : Nat
  f : Nat
  g : Nat
  h : Nat

def shaRound (r : ShaRegs) (kw : Nat × Nat) : ShaRegs :=
  let t1 := toU32 (r.h + bigS1 r.e + shaCh r.e r.f r.g + kw.1 + kw.2)
  let t2 := toU32 (bigS0 r.a + shaMaj r.a r.b r.c)
  ⟨toU32 (t1 + t2), r.a, r.b, r.c, toU32 (r.d + t1), r.e, r.f, r.g⟩

def shaCompress (hs : List Nat) (block : List Nat) : List Nat :=
  let w := shaW block
  let r0 : ShaRegs :=
    ⟨hs.getD 0 0, hs.getD 1 0, hs.getD 2 0, hs.getD 3 0,
     hs.getD 4 0, hs.getD 5 0, hs.getD 6 0, hs.getD 7 0⟩
  let r := (SHA_K.zip w).foldl shaRound r0
  [toU32 (hs.getD 0 0 + r.a), toU32 (hs.getD 1 0 + r.b),
   toU32 (hs.getD 2 0 + r.c), toU32 (hs.getD 3 0 + r.d),
   toU32 (hs.getD 4 0 + r.e), toU32 (hs.getD 5 0 + r.f),
   toU32 (hs.getD 6 0 + r.g), toU32 (hs.getD 7 0 + r.h)]

/-- SHA-256 digest (32 bytes) of a byte list. -/
def sha256 (msg : List Nat) : List Nat :=
  let hs := (chunk64 (sha256pad msg)).foldl shaCompress SHA_H0
  (hs.map (fun wd =>
    [(wd >>> 24) % 256, (wd >>> 16) % 256, (wd >>> 8) % 256, wd % 256])).flatten

/-- UTF-8 encoding of one character. -/
def utf8Bytes (c : Char) : List Nat :=
  let n := c.toNat
  if n < 128 then [n]
  else if n < 2048 then [192 + n / 64, 128 + n % 64]
  else if n < 65536 then
    [224 + n / 4096, 128 + (n / 64) % 64, 128 + n % 64]
  else
    [240 + n / 262144, 128 + (n / 4096) % 64, 128 + (n / 64) % 64,
     128 + n % 64]

/-- `s.encode("utf-8")` as a byte list. -/
def strBytes (s : String) : List Nat := (s.data.map utf8Bytes).flatten

def beBytesToNat (bytes : List Nat) : Nat :=
  bytes.foldl (fun a b => a * 256 + b) 0

/-- `_stable_seed(s) = int.from_bytes(sha256(s.encode()).digest()[:8],
"big")` (app.py lines 366–367; identically cover_collage.py lines
19–20). -/
def stable_seed (s : String) : Nat := beBytesToNat ((sha256 (strBytes s)).take 8)

def hexDigit (n : Nat) : Char :=
  if n < 10 then Char.ofNat (48 + n) else Char.ofNat (87 + n)

def byteHex (b : Nat) : String := ⟨[hexDigit (b / 16), hexDigit (b % 16)]⟩

/-- `hashlib.sha256(bytes).hexdigest()`. -/
def sha256hex (msg : List Nat) : String := String.join ((sha256 msg).map byteHex)

def natToHexAux : Nat → Nat → List Char → List Char
  | 0, _, acc => acc
  | fuel + 1, n, acc =>
    if n = 0 then acc else natToHexAux fuel (n / 16) (hexDigit (n % 16) :: acc)

/-- `f"{n:x}"`: lowercase hex without leading zeros. -/
def natToHex (n : Nat) : String :=
  if n = 0 then "0" else ⟨natToHexAux (n + 1) n []⟩

/-- `_new_build_nonce()` (app.py lines 353–354) as a function of its two
environment inputs: the wall clock `time.time_ns()` and the 32 hex chars
of `secrets.token_hex(16)` — `f"{time.time_ns():x}-{secrets.token_hex(16)}"`.
Neither input comes from the build's user inputs. -/
def new_build_nonce (time_ns : Nat) (token_hex16 : String) : String :=
  natToHex time_ns ++ "-" ++ token_hex16

/-! ## NumPy `default_rng` (SeedSequence + PCG64 + Lemire draw)

`build_book_schedule` draws through `np.random.default_rng(seed)`.  The
concrete generator is transcribed from NumPy's sources:
`SeedSequence.mix_entropy`/`generate_state` (numpy/random/bit_generator.pyx,
constants from O'Neill's randutils), the PCG64 bit generator
(numpy/random/src/pcg64/pcg64.h: 128-bit LCG state, XSL-RR output,
step-then-output, and `pcg64_next32`'s buffering of the high output
half), and the bounded draw behind `Generator.integers`
(numpy/random/src/distributions/distributions.c,
`random_bounded_uint64_fill` with `use_masked=False`; half-open range so
`rng = high - 1`): ranges within 32 bits — every pool size in this
program — use `buffered_bounded_lemire_uint32` over 32-bit halves of the
PCG64 outputs, low half first; only ranges above 32 bits use
`bounded_lemire_uint64`. -/

def SS_INIT_A : Nat := 0x43b0d7e5

def SS_MULT_A : Nat := 0x931e8875

def SS_INIT_B : Nat := 0x8b51f9dd

def SS_MULT_B : Nat := 0x58f38ded

def SS_MIX_L : Nat := 0xca01f9dd

def SS_MIX_R : Nat := 0x4973f715

/-- 32-bit wrap-around subtraction. -/
def sub32 (a b : Nat) : Nat := (a + 4294967296 - b % 4294967296) % 4294967296

/-- `hashmix(value, &hash_const)` of SeedSequence; returns the new value
and the updated hash constant. -/
def ssHashmix (value hc : Nat) : Nat × Nat :=
  let value := toU32 (value ^^^ hc)
  let hc := toU32 (hc * SS_MULT_A)
  let value := toU32 (value * hc)
  (value ^^^ (value >>> 16), hc)

/-- `mix(x, y)` of SeedSequence. -/
def ssMix (x y : Nat) : Nat :=
  let result := sub32 (toU32 (SS_MIX_L * x)) (toU32 (SS_MIX_R * y))
  result ^^^ (result >>> 16)

/-- `SeedSequence._int_to_uint32_array`: little-endian 32-bit limbs. -/
def intToU32Aux : Nat → Nat → List Nat
  | 0, _ => []
  | fuel + 1, n =>
    if n = 0 then [] else (n % 4294967296) :: intToU32Aux fuel (n / 4294967296)

def intToU32List (n : Nat) : List Nat :=
  if n = 0 then [0] else intToU32Aux (n + 1) n

/-- `SeedSequence.mix_entropy` with the default pool size 4 and an empty
spawn key: fill the pool from the entropy words (zero-padded), mix every
pool word with every other, then fold in any remaining entropy words. -/
def mixEntropy (entropy : List Nat) : List Nat :=
  let step1 := (List.range 4).foldl (fun (acc : List Nat × Nat) i =>
    let r := ssHashmix (entropy.getD i 0) acc.2
    (acc.1 ++ [r.1], r.2)) ([], SS_INIT_A)
  let step2 := (List.range 4).foldl (fun (acc : List Nat × Nat) i_src =>
    (List.range 4).foldl (fun (acc2 : List Nat × Nat) i_dst =>
      if i_src = i_dst then acc2
      else
        let r := ssHashmix (acc2.1.getD i_src 0) acc2.2
        (acc2.1.set i_dst (ssMix (acc2.1.getD i_dst 0) r.1), r.2)) acc) step1
  let step3 := (List.range' 4 (entropy.length - 4)).foldl
    (fun (acc : List Nat × Nat) i_src =>
      (List.range 4).foldl (fun (acc2 : List Nat × Nat) i_dst =>
        let r := ssHashmix (entropy.getD i_src 0) acc2.2
        (acc2.1.set i_dst (ssMix (acc2.1.getD i_dst 0) r.1), r.2)) acc) step2
  step3.1

/-- `SeedSequence.generate_state(n_words, np.uint32)`: hash the pool words
cyclically with the `INIT_B`/`MULT_B` constant stream. -/
def generateStateU32 (pool : List Nat) (outWords : Nat) : List Nat :=
  ((List.range outWords).foldl (fun (acc : List Nat × Nat × Nat) _ =>
    let v := pool.getD acc.2.2 0
    let v := toU32 (v ^^^ acc.2.1)
    let hc := toU32 (acc.2.1 * SS_MULT_B)
    let v := toU32 (v * hc)
    let v := v ^^^ (v >>> 16)
    (acc.1 ++ [v], hc, (acc.2.2 + 1) % 4)) ([], SS_INIT_B, 0)).1

/-- `generate_state(n_words, np.uint64)`: pairs of 32-bit words combined
little-endian (low word first). -/
def generateStateU64 (pool : List Nat) (nWords : Nat) : List Nat :=
  let o := generateStateU32 pool (2 * nWords)
  (List.range nWords).map (fun k => o.getD (2 * k) 0 + (o.getD (2 * k + 1) 0) <<< 32)

/-- PCG64 state: 128-bit LCG state, odd increment, and the 32-bit output
buffer numpy's `pcg64_state` carries (`has_uint32`/`uinteger`): 32-bit
draws consume a 64-bit output in two halves, and the pending high half is
buffered here between draws. -/
structure Pcg64 where
  state : Nat
  inc : Nat
  has_uint32 : Bool
  uinteger : Nat

/-- `PCG_DEFAULT_MULTIPLIER_128`. -/
def PCG_MULT : Nat := 2549297995355413924 * 2 ^ 64 + 4865540595714422341

def pcgStep (s : Pcg64) : Pcg64 :=
  { s with state := (s.state * PCG_MULT + s.inc) % 2 ^ 128 }

/-- `default_rng(seed)` state initialisation:
`SeedSequence(seed).generate_state(4, uint64)` gives `initstate` (words
0–1, high first) and `initseq` (words 2–3); then `pcg64_srandom`:
`state = 0; inc = (initseq << 1) | 1; step; state += initstate; step`. -/
def pcg64Init (seed : Nat) : Pcg64 :=
  let vals := generateStateU64 (mixEntropy (intToU32List seed)) 4
  let initstate := (vals.getD 0 0) * 2 ^ 64 + vals.getD 1 0
  let initseq := (vals.getD 2 0) * 2 ^ 64 + vals.getD 3 0
  let s0 : Pcg64 :=
    { state := 0, inc := (initseq * 2 + 1) % 2 ^ 128,
      has_uint32 := false, uinteger := 0 }
  let s1 := pcgStep s0
  pcgStep { s1 with state := (s1.state + initstate) % 2 ^ 128 }

def rotr64 (v r : Nat) : Nat :=
  ((v >>> r) ||| (v <<< ((64 - r) % 64))) % 2 ^ 64

/-- PCG64 XSL-RR output: step, then rotate the xor-folded state by its
top 6 bits. -/
def pcgNext64 (s : Pcg64) : Nat × Pcg64 :=
  let s2 := pcgStep s
  let st := s2.state
  (rotr64 ((st >>> 64) ^^^ (st % 2 ^ 64)) (st >>> 122), s2)

/-- numpy `pcg64_next32`: if a buffered high half is pending, return it;
otherwise draw a fresh 64-bit output, return its low 32 bits and buffer
the high 32 bits in the generator state (which persists across calls to
`Generator.integers`). -/
def pcgNext32 (s : Pcg64) : Nat × Pcg64 :=
  if s.has_uint32 then
    (s.uinteger, { s with has_uint32 := false })
  else
    let u := pcgNext64 s
    (u.1 % 2 ^ 32, { u.2 with has_uint32 := true, uinteger := u.1 >>> 32 })

/-- The rejection loop of `buffered_bounded_lemire_uint32`: while the low
32 bits of `m` are below the threshold, redraw a 32-bit half.  The loop
is fuel-bounded (the rejection probability per draw is below `2^-27` for
the pool sizes here; on fuel exhaustion the last draw is returned). -/
def lemire32Retry : Nat → Pcg64 → Nat → Nat → Nat → Nat × Pcg64
  | 0, s, _, _, m => (m >>> 32, s)
  | fuel + 1, s, rngExcl, threshold, m =>
    if m % 2 ^ 32 < threshold then
      let u := pcgNext32 s
      lemire32Retry fuel u.2 rngExcl threshold (u.1 * rngExcl)
    else (m >>> 32, s)

/-- numpy `buffered_bounded_lemire_uint32`: one uniform value in
`0..rng` inclusive, by 32-bit Lemire rejection over `pcg64_next32`
(threshold `(UINT32_MAX - rng) % rng_excl`). -/
def bufferedBoundedLemireU32 (s : Pcg64) (rng : Nat) : Nat × Pcg64 :=
  let rngExcl := rng + 1
  let u := pcgNext32 s
  let m := u.1 * rngExcl
  if m % 2 ^ 32 ≥ rngExcl then (m >>> 32, u.2)
  else lemire32Retry 64 u.2 rngExcl ((2 ^ 32 - rngExcl) % rngExcl) m

/-- The rejection loop of `bounded_lemire_uint64` (the branch for ranges
above 32 bits, unreachable for this program's pool sizes): while the low
64 bits of `m` are below the threshold, redraw.  Fuel-bounded like the
32-bit loop. -/
def lemireRetry : Nat → Pcg64 → Nat → Nat → Nat → Nat × Pcg64
  | 0, s, _, _, m => (m >>> 64, s)
  | fuel + 1, s, rngExcl, threshold, m =>
    if m % 2 ^ 64 < threshold then
      let u := pcgNext64 s
      lemireRetry fuel u.2 rngExcl threshold (u.1 * rngExcl)
    else (m >>> 64, s)

/-- numpy `random_bounded_uint64_fill` (`use_masked=False`) for one
value: a uniform value in `0..rng` inclusive.  `rng = 0` short-circuits;
ranges within 32 bits — every candidate-pool size in this program — take
the buffered 32-bit Lemire draw; the full 64-bit range returns a raw
output; larger ranges take the 64-bit Lemire draw. -/
def randomBoundedUint64 (s : Pcg64) (rng : Nat) : Nat × Pcg64 :=
  if rng = 0 then (0, s)
  else if rng ≤ 2 ^ 32 - 1 then bufferedBoundedLemireU32 s rng
  else if rng = 2 ^ 64 - 1 then pcgNext64 s
  else
    let rngExcl := rng + 1
    let u := pcgNext64 s
    let m := u.1 * rngExcl
    if m % 2 ^ 64 ≥ rngExcl then (m >>> 64, u.2)
    else lemireRetry 64 u.2 rngExcl ((2 ^ 64 - rngExcl) % rngExcl) m

/-- `rng.integers(0, n)` (`endpoint=False`, so the bounded-draw range
parameter is `n - 1`), in the stateful-draw shape `build_book_schedule`
is parameterised by. -/
def npIntegers (s : Pcg64) (n : Nat) : Nat × Pcg64 := randomBoundedUint64 s (n - 1)

/-! ## app.py — `build_interior`'s schedule and cache keys -/

/-- The schedule built by `build_interior` (app.py line 725):
`build_book_schedule(_stable_seed(build_nonce), start_hour=6, count=24)`
with the concrete NumPy generator. -/
def interior_schedule (build_nonce : String) : Option (List (Nat × Quest)) :=
  build_book_schedule npIntegers (pcg64Init (stable_seed build_nonce)) 6 24

/-- The Mission identifiers of the interior schedule, in slot order. -/
def interior_schedule_ids (build_nonce : String) : List String :=
  ((interior_schedule build_nonce).getD []).map (fun p => p.2.id)

/-- The sanitize ("wash") cache key computed during a build with nonce
`_build_nonce`: `hashlib.sha256(raw).hexdigest()` (app.py line 576).  The
nonce is not part of the key — exactly as in the source, where the key is
derived from the raw upload bytes alone. -/
def wash_cache_key_of_build (_build_nonce : String) (raw : List Nat) : String :=
  sha256hex raw

/-- The sketch cache key computed during a build with nonce
`_build_nonce`: `(sha256(img).hexdigest(), int(w), int(h))` (app.py line
612); again nonce-independent by construction. -/
def sketch_cache_key_of_build (_build_nonce : String) (img : List Nat)
    (w h : Nat) : String × Nat × Nat :=
  (sha256hex img, w, h)

/-! ## Claim theorems -/

/-- C2: `ensure_min_pages` returns the page sequence unchanged when
`len(pages) >= min_pages` (and is idempotent and never truncates);
otherwise it returns exactly `min_pages` pages — the original pages
unchanged at the front, followed by fillers built with page numbers
`len(pages)+1` through `min_pages`, continuing the 1-based sequence. -/
theorem ensure_min_pages_of_ge {α : Type} (pages : List α) (min_pages : Int)
    (fill : Nat → α) (h : (pages.length : Int) ≥ min_pages) :
    ensure_min_pages pages min_pages fill = pages := by
  unfold ensure_min_pages
  by_cases h0 : min_pages ≤ 0
  · simp [h0]
  · simp [h0, h]

theorem C2_ensure_min_pages {α : Type} (pages : List α) (min_pages : Int)
    (fill : Nat → α) :
    ((pages.length : Int) ≥ min_pages →
        ensure_min_pages pages min_pages fill = pages)
    ∧ ((pages.length : Int) < min_pages →
        (ensure_min_pages pages min_pages fill).length = min_pages.toNat
        ∧ (ensure_min_pages pages min_pages fill).take pages.length = pages
        ∧ (ensure_min_pages pages min_pages fill).drop pages.length
            = (List.range (min_pages - (pages.length : Int)).toNat).map
                (fun k => fill (pages.length + 1 + k)))
    ∧ pages.length ≤ (ensure_min_pages pages min_pages fill).length
    ∧ ensure_min_pages (ensure_min_pages pages min_pages fill) min_pages fill
        = ensure_min_pages pages min_pages fill := by
  by_cases hge : (pages.length : Int) ≥ min_pages
  · refine ⟨fun _ => ensure_min_pages_of_ge pages min_pages fill hge,
      fun hlt => absurd hlt (by omega), ?_, ?_⟩ <;>
      rw [ensure_min_pages_of_ge pages min_pages fill hge]
    exact ensure_min_pages_of_ge pages min_pages fill hge
  · have h0 : ¬ min_pages ≤ 0 := by omega
    have hlt : (pages.length : Int) < min_pages := by omega
    have hres : ensure_min_pages pages min_pages fill
        = pages ++ (List.range (min_pages - (pages.length : Int)).toNat).map
            (fun k => fill (pages.length + 1 + k)) := by
      simp [ensure_min_pages, h0, hge]
    have hlen : (ensure_min_pages pages min_pages fill).length = min_pages.toNat := by
      rw [hres]; simp; omega
    refine ⟨fun hge2 => absurd hge2 (by omega), fun _ => ⟨hlen, ?_, ?_⟩, ?_, ?_⟩
    · rw [hres, List.take_left]
    · rw [hres, List.drop_left]
    · rw [hres]; simp
    · refine ensure_min_pages_of_ge _ min_pages fill ?_
      rw [hlen]; omega

theorem C2_witness :
    (ensure_min_pages [100, 200] 4 (fun n => n)).length = (4 : Int).toNat
    ∧ (ensure_min_pages [100, 200] 4 (fun n => n)).take ([100, 200] : List Nat).length = [100, 200]
    ∧ (ensure_min_pages [100, 200] 4 (fun n => n)).drop ([100, 200] : List Nat).length
        = (List.range ((4 : Int) - (([100, 200] : List Nat).length : Int)).toNat).map
            (fun k => ([100, 200] : List Nat).length + 1 + k) :=
  (C2_ensure_min_pages [100, 200] 4 (fun n => n)).2.1 (by decide)

/-- C3: the configured Zones' hour ranges partition the 24-hour clock —
for every hour 0..23 exactly one Zone covers it (no gaps, no overlaps)
and `zone_for_hour` returns that unique Zone. -/
theorem C3_hour_partition :
    ∀ h : Fin 24,
      ZONES.filter (fun z => zoneCovers z (h : Int)) = [get_zone_for_hour (h : Int)] := by
  intro h
  fin_cases h <;> rfl

/-- C4: the bounded result cache is least-recently-used with
promote-on-hit: `_lru_put` caps the entry count at the capacity by
dropping from the least-recently-used end (the updated list's prefix);
a `get` hit moves the entry to the most-recently-used end; and in a
capacity-2 cache `put a; put b; put c` leaves `{b, c}` (`a` evicted), as
does `put a; put b; get b; put c` (`a`, not `b`, evicted). -/
theorem C4_lru_cache :
    (∀ (od : List (String × Nat)) (k : String) (v : Nat) (m : Nat),
        (lru_put od k v m).length ≤ m)
    ∧ (∀ (od : List (String × Nat)) (k : String) (v : Nat) (m : Nat),
        lru_put od k v m
          = (odMoveToEnd (odSet od k v) k).drop
              ((odMoveToEnd (odSet od k v) k).length - m))
    ∧ (∀ (od : List (String × Nat)) (k : String),
        (od.find? (fun p => p.1 = k)).isSome →
          ((lru_get od k).2).getLast? = od.find? (fun p => p.1 = k))
    ∧ odKeys (lru_put (lru_put (lru_put [] "a" 1 2) "b" 2 2) "c" 3 2) = ["b", "c"]
    ∧ odKeys (lru_put (lru_get (lru_put (lru_put [] "a" 1 2) "b" 2 2) "b").2 "c" 3 2)
        = ["b", "c"] := by
  refine ⟨fun od k v m => odEvict_length_le m _,
    fun od k v m => odEvict_eq_drop m _, fun od k hk => ?_, by decide, by decide⟩
  cases hfind : od.find? (fun p => p.1 = k) with
  | none => rw [hfind] at hk; simp at hk
  | some p =>
      simp only [lru_get, hfind, odMoveToEnd]
      exact List.getLast?_concat _

theorem C4_witness :
    (([("x", 5)] : List (String × Nat)).find? (fun p => p.1 = "x")).isSome
    ∧ ((lru_get ([("x", 5)] : List (String × Nat)) "x").2).getLast?
        = ([("x", 5)] : List (String × Nat)).find? (fun p => p.1 = "x") :=
  ⟨by decide, C4_lru_cache.2.2.1 [("x", 5)] "x" (by decide)⟩

/-- C10: `adapt_mission` preserves the Mission's id, xp and difficulty
for every audience — only the title/movement/thinking/proof text is
rewritten — and for the audience "kid" it returns the input Mission
entirely unchanged. -/
theorem C10_adapt_mission_frame (m : Mission) (aud : Audience) :
    (adapt_mission m aud).id = m.id
    ∧ (adapt_mission m aud).xp = m.xp
    ∧ (adapt_mission m aud).difficulty = m.difficulty
    ∧ adapt_mission m Audience.kid = m := by
  cases aud <;> exact ⟨rfl, rfl, rfl, rfl⟩

theorem adapt_mission_difficulty (m : Mission) (aud : Audience) :
    (adapt_mission m aud).difficulty = m.difficulty := by
  cases aud <;> rfl

theorem getD_mod_mem {α : Type} (l : List α) (i : Nat) (dflt : α)
    (h : l ≠ []) : l.getD (i % l.length) dflt ∈ l := by
  have hlen : 0 < l.length := List.length_pos.mpr h
  have hi : i % l.length < l.length := Nat.mod_lt _ hlen
  rw [List.getD_eq_getElem?_getD, List.getElem?_eq_getElem hi]
  exact List.getElem_mem hi

theorem hourToZone_missions_ne_nil :
    ∀ k : Fin 24, (hourToZone (k : Int)).missions ≠ [] := by
  decide

theorem get_zone_missions_ne_nil (hour : Int) :
    (get_zone_for_hour hour).missions ≠ [] := by
  have h1 : 0 ≤ hourMod hour := Int.emod_nonneg hour (by norm_num)
  have h2 : hourMod hour < 24 := Int.emod_lt_of_pos hour (by norm_num)
  have hbound : (hourMod hour).toNat < 24 := by omega
  have hk : (((⟨(hourMod hour).toNat, hbound⟩ : Fin 24) : Nat) : Int) = hourMod hour := by
    simp [Int.toNat_of_nonneg h1]
  have hne := hourToZone_missions_ne_nil ⟨(hourMod hour).toNat, hbound⟩
  rw [hk] at hne
  exact hne

/-- C5: for every hour, requested difficulty, draw and audience, the
Mission returned by `pick_mission_for_time` has difficulty at most the
clamped requested difficulty whenever the hour's Zone has any Mission at
or below it; when it has none, the selection falls back to the Zone's
full unfiltered pool (adapted for the audience). -/
theorem C5_difficulty_filter (randbelow : Nat → Nat) (hour difficulty : Int)
    (aud : Audience) :
    ((get_zone_for_hour hour).missions.filter
        (fun m => m.difficulty ≤ max 1 (min 5 difficulty)) ≠ [] →
      (pick_mission_for_time randbelow hour difficulty aud).difficulty
        ≤ max 1 (min 5 difficulty))
    ∧ ((get_zone_for_hour hour).missions.filter
        (fun m => m.difficulty ≤ max 1 (min 5 difficulty)) = [] →
      pick_mission_for_time randbelow hour difficulty aud
        ∈ (get_zone_for_hour hour).missions.map (fun m => adapt_mission m aud)) := by
  have hred : pick_mission_for_time randbelow hour difficulty aud
      = adapt_mission (rand_choice randbelow
          (if (get_zone_for_hour hour).missions.filter
              (fun m => m.difficulty ≤ max 1 (min 5 difficulty)) = []
           then (get_zone_for_hour hour).missions
           else (get_zone_for_hour hour).missions.filter
              (fun m => m.difficulty ≤ max 1 (min 5 difficulty)))) aud := rfl
  constructor
  · intro hne
    rw [hred, if_neg hne, adapt_mission_difficulty]
    have hmem : rand_choice randbelow
        ((get_zone_for_hour hour).missions.filter
          (fun m => m.difficulty ≤ max 1 (min 5 difficulty)))
        ∈ (get_zone_for_hour hour).missions.filter
            (fun m => m.difficulty ≤ max 1 (min 5 difficulty)) :=
      getD_mod_mem _ _ _ hne
    have hp := List.of_mem_filter hmem
    simpa using hp
  · intro he
    rw [hred, if_pos he]
    exact List.mem_map_of_mem _
      (getD_mod_mem _ _ _ (get_zone_missions_ne_nil hour))

theorem C5_witness :
    (get_zone_for_hour 9).missions.filter
        (fun m => m.difficulty ≤ max 1 (min 5 3)) ≠ []
    ∧ (pick_mission_for_time (fun _ => 0) 9 3 Audience.kid).difficulty
        ≤ max 1 (min 5 3) :=
  ⟨by decide, (C5_difficulty_filter (fun _ => 0) 9 3 Audience.kid).1 (by decide)⟩

/-- C6: the cover geometry satisfies `cover_width = 2*trim + spine_width
+ 2*bleed` exactly and `cover_height = trim + 2*bleed`, and the back,
spine and front regions are contiguous and non-overlapping — back
`[bleed, bleed+trim]`, spine `[bleed+trim, bleed+trim+spine]`, front
`[bleed+trim+spine, bleed+2*trim+spine]` — both for the parametric
collage cover and for app.py's fixed-page `build_cover`. -/
theorem C6_cover_geometry (pages : ℕ) (factor trim_in bleed_in fac2 : ℚ)
    (htrim : 0 ≤ trim_in) :
    (build_cover_collage_geometry pages factor trim_in bleed_in).width
        = 2 * (trim_in * inch)
          + (build_cover_collage_geometry pages factor trim_in bleed_in).spine
          + 2 * (bleed_in * inch)
    ∧ (build_cover_collage_geometry pages factor trim_in bleed_in).height
        = trim_in * inch + 2 * (bleed_in * inch)
    ∧ (build_cover_collage_geometry pages factor trim_in bleed_in).backX
        = bleed_in * inch
    ∧ (build_cover_collage_geometry pages factor trim_in bleed_in).backX
          + trim_in * inch
        = (build_cover_collage_geometry pages factor trim_in bleed_in).spineX
    ∧ (build_cover_collage_geometry pages factor trim_in bleed_in).spineX
          + (build_cover_collage_geometry pages factor trim_in bleed_in).spine
        = (build_cover_collage_geometry pages factor trim_in bleed_in).frontX
    ∧ (build_cover_collage_geometry pages factor trim_in bleed_in).frontX
          + trim_in * inch
        = (build_cover_collage_geometry pages factor trim_in bleed_in).width
          - bleed_in * inch
    ∧ (build_cover_collage_geometry pages factor trim_in bleed_in).backX
        ≤ (build_cover_collage_geometry pages factor trim_in bleed_in).spineX
    ∧ (build_cover_collage_geometry pages factor trim_in bleed_in).spineX
        < (build_cover_collage_geometry pages factor trim_in bleed_in).frontX
    ∧ ((build_cover_geometry fac2).width
          = 2 * TRIM + (build_cover_geometry fac2).spine + 2 * BLEED
        ∧ (build_cover_geometry fac2).height = TRIM + 2 * BLEED
        ∧ (build_cover_geometry fac2).backX + TRIM = (build_cover_geometry fac2).spineX
        ∧ (build_cover_geometry fac2).spineX + (build_cover_geometry fac2).spine
            = (build_cover_geometry fac2).frontX
        ∧ (build_cover_geometry fac2).frontX + TRIM
            = (build_cover_geometry fac2).width - BLEED) := by
  have hT : (0 : ℚ) ≤ trim_in * inch :=
    mul_nonneg htrim (by norm_num [inch])
  have hsw := spine_width_pts_pos pages factor
  refine ⟨rfl, rfl, rfl, rfl, rfl, ?_, ?_, ?_, rfl, rfl, rfl, rfl, ?_⟩
  · simp only [build_cover_collage_geometry]; ring
  · simp only [build_cover_collage_geometry]; linarith
  · simp only [build_cover_collage_geometry]; linarith
  · simp only [build_cover_geometry]; ring

theorem C6_witness :
    (build_cover_collage_geometry 26 (2252/1000000) (85/10) (125/1000)).spineX
      < (build_cover_collage_geometry 26 (2252/1000000) (85/10) (125/1000)).frontX
    ∧ (build_cover_collage_geometry 26 (2252/1000000) (85/10) (125/1000)).width
        = 2 * ((85/10 : ℚ) * inch)
          + (build_cover_collage_geometry 26 (2252/1000000) (85/10) (125/1000)).spine
          + 2 * ((125/1000 : ℚ) * inch) :=
  ⟨(C6_cover_geometry 26 (2252/1000000) (85/10) (125/1000) (2252/1000000)
      (by norm_num)).2.2.2.2.2.2.2.1,
   (C6_cover_geometry 26 (2252/1000000) (85/10) (125/1000) (2252/1000000)
      (by norm_num)).1⟩

theorem pyRound_58552 : pyRound (58552/1000 : ℚ) = 59 := by
  have hfloor : ⌊(58552/1000 : ℚ)⌋ = 58 := by norm_num [Int.floor_eq_iff]
  unfold pyRound
  rw [hfloor, if_neg (by norm_num), if_pos (by norm_num)]
  norm_num

theorem spine_arg_26 :
    max (((26 : ℕ) : ℚ) * (2252/1000000) * inch) (1/1000 * inch) / (1/1000 * inch)
      = 58552/1000 := by
  rw [max_eq_left (by norm_num [inch])]
  norm_num [inch]

theorem spine_width_in_26_eq : spine_width_in 26 (2252/1000000) = 59/1000 := by
  unfold spine_width_in spine_width_pts
  rw [spine_arg_26, pyRound_58552]
  norm_num [inch]

/-- C7 counterexample: at paper factor 0.002252 and page count 26 the
source's spine width (cover_collage.py line 162 rounds to the nearest
0.001 inch) is 0.059 inches, not the claim's clamp-only
`page_count * paper_factor` = 0.058552 inches. -/
theorem C7_counterexample :
    spine_width_in 26 (2252/1000000) ≠ spec_spine_width_in 26 (2252/1000000)
    ∧ spine_width_in 26 (2252/1000000) = 59/1000
    ∧ spec_spine_width_in 26 (2252/1000000) = 58552/1000000 := by
  have h2 : spec_spine_width_in 26 (2252/1000000) = 58552/1000000 := by
    unfold spec_spine_width_in
    rw [max_eq_left (by norm_num)]
    norm_num
  refine ⟨?_, spine_width_in_26_eq, h2⟩
  rw [spine_width_in_26_eq, h2]
  norm_num

/-- C7 amended: the collage spine width equals `page_count * paper_factor`
clamped below by 0.001 inch and then rounded (half-to-even) to the
nearest 0.001 inch; it is monotonically non-decreasing in the page count
for fixed nonnegative factor; at factor 0.002252 and page count 26 it is
0.059 inch, while app.py's `build_cover` (clamp only, at its fixed 26
pages) gives exactly 0.058552 ≈ 0.0586 inches — the spec's figure. -/
theorem C7_spine_width (factor : ℚ) (hf : 0 ≤ factor) (n m : ℕ)
    (hnm : n ≤ m) :
    spine_width_pts n factor ≤ spine_width_pts m factor
    ∧ spine_width_in n factor
        = (pyRound (spec_spine_width_in n factor * 1000) : ℚ) / 1000
    ∧ spine_width_in 26 (2252/1000000) = 59/1000
    ∧ build_cover_sw (2252/1000000) / inch = 58552/1000000
    ∧ |build_cover_sw (2252/1000000) / inch - 586/10000| < 1/10000 := by
  have harg : max ((n : ℚ) * factor * inch) (1/1000 * inch) / (1/1000 * inch)
      = spec_spine_width_in n factor * 1000 := by
    unfold spec_spine_width_in
    rw [inch, div_eq_iff (by norm_num)]
    rcases le_total ((n : ℚ) * factor) (1/1000) with hc | hc
    · rw [max_eq_right (by nlinarith), max_eq_right hc]; ring
    · rw [max_eq_left (by nlinarith), max_eq_left hc]; ring
  have h4 : build_cover_sw (2252/1000000) / inch = 58552/1000000 := by
    unfold build_cover_sw KDP_PAGES_FIXED
    rw [max_eq_left (by norm_num [inch])]
    norm_num [inch]
  refine ⟨spine_width_pts_mono hf hnm, ?_, spine_width_in_26_eq, h4, ?_⟩
  · unfold spine_width_in spine_width_pts
    rw [harg, inch]
    ring
  · rw [h4, abs_sub_lt_iff]
    norm_num

theorem C7_witness :
    spine_width_pts 10 (2252/1000000) ≤ spine_width_pts 26 (2252/1000000)
    ∧ spine_width_in 26 (2252/1000000) = 59/1000 :=
  ⟨(C7_spine_width (2252/1000000) (by norm_num) 10 26 (by norm_num)).1,
   (C7_spine_width (2252/1000000) (by norm_num) 10 26 (by norm_num)).2.2.1⟩

/-- C8 counterexample: below the threshold (26 pages < 79) the cover's
spine carries no decoration beyond the always-drawn solid band — there is
no compact-mark branch in the source, contrary to the claim. -/
theorem C8_counterexample :
    cover_spine_art 26 SPINE_TEXT_MIN_PAGES = SpineArt.plainBand
    ∧ claimed_spine_art 26 SPINE_TEXT_MIN_PAGES = SpineArt.compactMark
    ∧ cover_spine_art 26 SPINE_TEXT_MIN_PAGES
        ≠ claimed_spine_art 26 SPINE_TEXT_MIN_PAGES := by
  refine ⟨rfl, rfl, ?_⟩
  decide

/-- C8 amended: the spine decoration is a threshold-based branch, not a
continuous function — at or above `SPINE_TEXT_MIN_PAGES` the rotated
spine text is rendered, strictly below it only the plain solid spine band
(no compact mark is ever rendered). -/
theorem C8_spine_threshold (pages threshold : ℤ) :
    (pages ≥ threshold → cover_spine_art pages threshold = SpineArt.rotatedText)
    ∧ (pages < threshold → cover_spine_art pages threshold = SpineArt.plainBand)
    ∧ cover_spine_art pages threshold ≠ SpineArt.compactMark := by
  unfold cover_spine_art
  refine ⟨fun h => if_pos h, fun h => if_neg (by omega), ?_⟩
  split_ifs <;> simp

theorem C8_witness :
    cover_spine_art 100 SPINE_TEXT_MIN_PAGES = SpineArt.rotatedText
    ∧ cover_spine_art 26 SPINE_TEXT_MIN_PAGES = SpineArt.plainBand :=
  ⟨(C8_spine_threshold 100 SPINE_TEXT_MIN_PAGES).1 (by decide),
   (C8_spine_threshold 26 SPINE_TEXT_MIN_PAGES).2.1 (by decide)⟩

theorem QUEST_RESERVE_ne_nil : QUEST_RESERVE ≠ [] := by decide

theorem scheduleCandidates_of_bank_ne (used : List String) (hour : Nat)
    (h1 : (QUEST_BANK hour).filter (fun q => !(used.contains q.id)) ≠ []) :
    scheduleCandidates used hour
      = (QUEST_BANK hour).filter (fun q => !(used.contains q.id)) := by
  simp only [scheduleCandidates]
  rw [if_neg h1, if_neg h1]

theorem scheduleCandidates_of_bank_nil (used : List String) (hour : Nat)
    (h1 : (QUEST_BANK hour).filter (fun q => !(used.contains q.id)) = [])
    (h2 : QUEST_RESERVE.filter (fun q => !(used.contains q.id)) ≠ []) :
    scheduleCandidates used hour
      = QUEST_RESERVE.filter (fun q => !(used.contains q.id)) := by
  simp only [scheduleCandidates]
  rw [if_pos h1, if_neg h2]

theorem scheduleCandidates_of_both_nil (used : List String) (hour : Nat)
    (h1 : (QUEST_BANK hour).filter (fun q => !(used.contains q.id)) = [])
    (h2 : QUEST_RESERVE.filter (fun q => !(used.contains q.id)) = []) :
    scheduleCandidates used hour = QUEST_RESERVE := by
  simp only [scheduleCandidates]
  rw [if_pos h1, if_pos h2]

theorem scheduleCandidates_ne_nil (used : List String) (hour : Nat) :
    scheduleCandidates used hour ≠ [] := by
  by_cases h1 : (QUEST_BANK hour).filter (fun q => !(used.contains q.id)) = []
  · by_cases h2 : QUEST_RESERVE.filter (fun q => !(used.contains q.id)) = []
    · rw [scheduleCandidates_of_both_nil used hour h1 h2]
      exact QUEST_RESERVE_ne_nil
    · rw [scheduleCandidates_of_bank_nil used hour h1 h2]
      exact h2
  · rw [scheduleCandidates_of_bank_ne used hour h1]
    exact h1

theorem scheduleStep_ne_none {σ : Type} (draw : σ → Nat → Nat × σ)
    (used : List String) (rng : σ) (hour : Nat) :
    scheduleStep draw used rng hour ≠ none := by
  have hne : ¬ (scheduleCandidates used hour).length = 0 := fun hz =>
    scheduleCandidates_ne_nil used hour (List.length_eq_zero.mp hz)
  unfold scheduleStep
  rw [dif_neg hne]
  simp

theorem scheduleStep_some_spec {σ : Type} (draw : σ → Nat → Nat × σ)
    (used : List String) (rng : σ) (hour : Nat) (q : Quest)
    (used2 : List String) (rng2 : σ)
    (h : scheduleStep draw used rng hour = some (q, used2, rng2)) :
    q ∈ scheduleCandidates used hour ∧ used2 = used ++ [q.id] := by
  have hne : ¬ (scheduleCandidates used hour).length = 0 := fun hz =>
    scheduleCandidates_ne_nil used hour (List.length_eq_zero.mp hz)
  unfold scheduleStep at h
  rw [dif_neg hne] at h
  simp only [Option.some.injEq, Prod.mk.injEq] at h
  obtain ⟨hq, hu, -⟩ := h
  subst hq
  exact ⟨List.get_mem _ _ _, hu.symm⟩

theorem scheduleAux_total {σ : Type} (draw : σ → Nat → Nat × σ) (start : Nat) :
    ∀ (k i : Nat) (used : List String) (rng : σ) (sched : List (Nat × Quest)),
      ∃ s, scheduleAux draw start k i used rng sched = some s := by
  intro k
  induction k with
  | zero => exact fun i used rng sched => ⟨sched, rfl⟩
  | succ k ih =>
      intro i used rng sched
      cases hs : scheduleStep draw used rng ((start + i) % 24) with
      | none => exact absurd hs (scheduleStep_ne_none draw used rng _)
      | some t =>
          obtain ⟨q, used2, rng2⟩ := t
          have hrec := ih (i + 1) used2 rng2 (odSet sched ((start + i) % 24) q)
          simpa [scheduleAux, hs] using hrec

/-- C9: building a Schedule never raises for any slot count (the loop
always returns a schedule because every step's candidate pool is
nonempty); a step never re-issues an already-used Mission identifier
while the slot's hour pool still has unused Missions (the pick then comes
from the hour pool filtered to unused ids); when the hour pool is
exhausted the pick comes from the shared reserve pool minus used ids; and
when that too is exhausted the step degrades gracefully to drawing from
the whole reserve pool, allowing repeats. -/
theorem C9_schedule_exhaustion {σ : Type} (draw : σ → Nat → Nat × σ)
    (rng0 : σ) (start count : Nat) :
    (∃ s, build_book_schedule draw rng0 start count = some s)
    ∧ (∀ (used : List String) (rng : σ) (hour : Nat),
        scheduleStep draw used rng hour ≠ none)
    ∧ (∀ (used : List String) (rng : σ) (hour : Nat) (q : Quest)
        (used2 : List String) (rng2 : σ),
        scheduleStep draw used rng hour = some (q, used2, rng2) →
          ((QUEST_BANK hour).filter (fun x => !(used.contains x.id)) ≠ [] →
              q ∈ (QUEST_BANK hour).filter (fun x => !(used.contains x.id)))
          ∧ ((QUEST_BANK hour).filter (fun x => !(used.contains x.id)) = [] →
              QUEST_RESERVE.filter (fun x => !(used.contains x.id)) ≠ [] →
              q ∈ QUEST_RESERVE.filter (fun x => !(used.contains x.id)))
          ∧ ((QUEST_BANK hour).filter (fun x => !(used.contains x.id)) = [] →
              QUEST_RESERVE.filter (fun x => !(used.contains x.id)) = [] →
              q ∈ QUEST_RESERVE)) := by
  refine ⟨scheduleAux_total draw start count 0 [] rng0 [],
    fun used rng hour => scheduleStep_ne_none draw used rng hour, ?_⟩
  intro used rng hour q used2 rng2 h
  obtain ⟨hmem, -⟩ := scheduleStep_some_spec draw used rng hour q used2 rng2 h
  refine ⟨fun h1 => ?_, fun h1 h2 => ?_, fun h1 h2 => ?_⟩
  · rwa [scheduleCandidates_of_bank_ne used hour h1] at hmem
  · rwa [scheduleCandidates_of_bank_nil used hour h1 h2] at hmem
  · rwa [scheduleCandidates_of_both_nil used hour h1 h2] at hmem

theorem C9_witness :
    scheduleStep (fun (u : Unit) (_ : Nat) => (0, u)) [] () 6 ≠ none
    ∧ bankQuest 6 0
        ∈ (QUEST_BANK 6).filter (fun x => !(([] : List String).contains x.id)) :=
  ⟨(C9_schedule_exhaustion (fun (u : Unit) (_ : Nat) => (0, u)) () 6 30).2.1 [] () 6,
   ((C9_schedule_exhaustion (fun (u : Unit) (_ : Nat) => (0, u)) () 6 30).2.2
      [] () 6 (bankQuest 6 0) ["06_00"] () (by decide)).1 (by decide)⟩

set_option maxRecDepth 400000 in
/-- C1 counterexample: the interior Schedule is not a function of the
user inputs.  `build_interior` seeds it with `_stable_seed(build_nonce)`
where the nonce comes from `time.time_ns()` and `secrets.token_hex(16)`
only — so two independent builds with identical name, uploads, paper and
mode, identical random token bytes, and wall clocks one nanosecond apart
produce Schedules with different Mission identifiers. -/
theorem C1_counterexample :
    interior_schedule_ids
        (new_build_nonce 1760000000000000000 "00112233445566778899aabbccddeeff")
      ≠ interior_schedule_ids
        (new_build_nonce 1760000000000000001 "00112233445566778899aabbccddeeff") := by
  decide

/-- C1 amended: the sanitize and sketch cache keys are identical across
any two builds with identical upload bytes and target dimensions (they do
not depend on the build nonce at all), and the Schedule is determined by
the 64-bit stable seed of the build nonce — builds whose nonces hash to
the same seed get identical Schedules.  But the nonce is freshly drawn
from the wall clock and 16 random bytes on every build, so independent
builds generally differ (see the counterexample). -/
theorem C1_schedule_determined_by_seed (n1 n2 : String) (raw img : List Nat)
    (w h : Nat) :
    (stable_seed n1 = stable_seed n2 →
        interior_schedule_ids n1 = interior_schedule_ids n2)
    ∧ wash_cache_key_of_build n1 raw = wash_cache_key_of_build n2 raw
    ∧ sketch_cache_key_of_build n1 img w h = sketch_cache_key_of_build n2 img w h := by
  refine ⟨fun hseed => ?_, rfl, rfl⟩
  unfold interior_schedule_ids interior_schedule
  rw [hseed]

theorem C1_witness :
    interior_schedule_ids "a" = interior_schedule_ids "a"
    ∧ wash_cache_key_of_build "a" [0] = wash_cache_key_of_build "b" [0]
    ∧ sketch_cache_key_of_build "a" [0] 1 2
        = sketch_cache_key_of_build "b" [0] 1 2 :=
  ⟨(C1_schedule_determined_by_seed "a" "a" [0] [0] 1 2).1 rfl,
   (C1_schedule_determined_by_seed "a" "b" [0] [0] 1 2).2.1,
   (C1_schedule_determined_by_seed "a" "b" [0] [0] 1 2).2.2⟩

end EPE
